import Mathlib

/-!
Shallow embedding of `custom_components/sector/client.py` (the Sector Alarm
HTTP client) and proofs of the specification claims about it.

Modelling conventions:
* Decoded JSON payloads are the inductive `Json`.  A successful HTTP body is
  modelled as an already-decoded `Json` value; malformed JSON bodies (which
  would make `response.json()` raise `json.JSONDecodeError` in the source)
  are outside the modelled domain.
* The network is an oracle `Env : HttpRequest → HttpOutcome`; the three
  outcome constructors correspond to receiving a response, hitting the
  10-second `async_timeout` bound (`asyncio.TimeoutError`), and an
  `aiohttp.ClientError` (transport-level failure).
* Python truthiness (`if response:`, `if not self.access_token:`) is
  `Json.truthy` / `truthyOpt`.
* Methods of `SectorAlarmAPI` become functions from the client state
  `ApiState` (the `self` fields); methods that can assign to `self` return
  the post-call state.  Data/action methods contain no assignment to `self`
  in the source, so they return the state unchanged.
* The embedding assumes an open session for authenticated calls (a closed
  session would make `self.session.get/post` raise `AttributeError` in the
  source; the spec's state machine makes that the caller's obligation).
-/

/-- Decoded JSON value, as produced by `response.json()`. -/
inductive Json where
  | null : Json
  | bool : Bool → Json
  | num : Int → Json
  | str : String → Json
  | arr : List Json → Json
  | obj : List (String × Json) → Json

/-- Python truthiness of a decoded JSON value (`if response:` in the source):
`None`, `False`, `0`, `""`, `[]` and `{}` are falsy, everything else truthy. -/
def Json.truthy : Json → Bool
  | .null => false
  | .bool b => b
  | .num n => decide (n ≠ 0)
  | .str s => decide (s ≠ "")
  | .arr xs => !xs.isEmpty
  | .obj fs => !fs.isEmpty

/-- Python truthiness of an optional value (`None` is falsy). -/
def truthyOpt : Option Json → Bool
  | none => false
  | some j => j.truthy

/-- First-match lookup in an association list; Python dict keys are unique so
this is exactly `dict.get`. -/
def dictGet : List (String × Json) → String → Option Json
  | [], _ => none
  | (k, v) :: fs, key => if k = key then some v else dictGet fs key

/-- Python `dict.get(key)` on a decoded JSON value.  The source only ever
calls `.get` on object responses; on a non-object Python would raise
`AttributeError`, which is outside the modelled domain. -/
def Json.getField : Json → String → Option Json
  | .obj fs, key => dictGet fs key
  | _, _ => none

/-- Python `data[key] = value` on a dict rendered as an association list in
insertion order: replace in place if the key exists, else append. -/
def dictInsert : List (String × Json) → String → Json → List (String × Json)
  | [], key, val => [(key, val)]
  | (k, v) :: fs, key, val =>
    if k = key then (key, val) :: fs else (k, v) :: dictInsert fs key val

mutual

/-- Python `repr()` of a decoded JSON value (string escaping simplified to
plain single quotes; no claim exercises the container or escape cases). -/
def Json.pyRepr : Json → String
  | .null => "None"
  | .bool true => "True"
  | .bool false => "False"
  | .num n => toString n
  | .str s => "\x27" ++ s ++ "\x27"
  | .arr xs => "[" ++ Json.pyReprList xs ++ "]"
  | .obj fs => "\x7b" ++ Json.pyReprFields fs ++ "\x7d"

/-- Comma-separated `repr()`s of the elements of a Python list. -/
def Json.pyReprList : List Json → String
  | [] => ""
  | [x] => Json.pyRepr x
  | x :: y :: xs => Json.pyRepr x ++ ", " ++ Json.pyReprList (y :: xs)

/-- Comma-separated `repr()`s of the items of a Python dict. -/
def Json.pyReprFields : List (String × Json) → String
  | [] => ""
  | [(k, v)] => "\x27" ++ k ++ "\x27: " ++ Json.pyRepr v
  | (k, v) :: f :: fs =>
    "\x27" ++ k ++ "\x27: " ++ Json.pyRepr v ++ ", " ++ Json.pyReprFields (f :: fs)

end

/-- Python `str()` of a decoded JSON value, as used by the f-string
`f"Bearer {self.access_token}"`: a string renders as itself, everything else
as its `repr()`. -/
def Json.pyStr : Json → String
  | .str s => s
  | .null => "None"
  | .bool b => Json.pyRepr (.bool b)
  | .num n => Json.pyRepr (.num n)
  | .arr xs => Json.pyRepr (.arr xs)
  | .obj fs => Json.pyRepr (.obj fs)

/-- `prefixOfChars p s` is true when `p` is a prefix of `s`. -/
def prefixOfChars : List Char → List Char → Bool
  | [], _ => true
  | _ :: _, [] => false
  | a :: as, b :: bs => a == b && prefixOfChars as bs

/-- `containsChars p s` is true when `p` occurs as a contiguous substring. -/
def containsChars (pat : List Char) : List Char → Bool
  | [] => prefixOfChars pat []
  | b :: bs => prefixOfChars pat (b :: bs) || containsChars pat bs

/-- Python `pat in s` on strings: substring containment, as used by
`'application/json' in content_type`. -/
def strContains (s pat : String) : Bool :=
  containsChars pat.toList s.toList

/-- Value of one character of the standard base64 alphabet. -/
def b64val (c : Char) : Option Nat :=
  if 'A' ≤ c ∧ c ≤ 'Z' then some (c.toNat - 65)
  else if 'a' ≤ c ∧ c ≤ 'z' then some (c.toNat - 97 + 26)
  else if '0' ≤ c ∧ c ≤ '9' then some (c.toNat - 48 + 52)
  else if c = '+' then some 62
  else if c = '/' then some 63
  else none

/-- Decode one padded base64 quantum of four characters into 1–3 bytes. -/
def b64group (a b c d : Char) : Option (List Nat) := do
  let va ← b64val a
  let vb ← b64val b
  if c = '=' then
    if d = '=' then pure [va * 4 + vb / 16] else none
  else do
    let vc ← b64val c
    if d = '=' then
      pure [va * 4 + vb / 16, (vb % 16) * 16 + vc / 4]
    else do
      let vd ← b64val d
      pure [va * 4 + vb / 16, (vb % 16) * 16 + vc / 4, (vc % 4) * 64 + vd]

/-- Decode a base64 character stream, four characters at a time. -/
def b64decodeChars : List Char → Option (List Nat)
  | [] => some []
  | a :: b :: c :: d :: rest => do
    let g ← b64group a b c d
    let r ← b64decodeChars rest
    pure (g ++ r)
  | _ => none

/-- Python `base64.b64decode` on a string, yielding the byte values; invalid
input yields `none` (where Python raises `binascii.Error` — no claim
exercises invalid base64). -/
def b64decode (s : String) : Option (List Nat) :=
  b64decodeChars s.toList

/-- One HTTP request as issued by `aiohttp`: method, URL, optional JSON
payload, and the extra headers passed to the call. -/
structure HttpRequest where
  method : String
  url : String
  payload : Option Json
  headers : List (String × String)

/-- What the network does with one request: a response (status, Content-Type
header, decoded JSON body, raw text), a timeout of the
`async_timeout.timeout(10)` bound, or an `aiohttp.ClientError`. -/
inductive HttpOutcome where
  | response : Nat → String → Json → String → HttpOutcome
  | timeout : HttpOutcome
  | transportError : HttpOutcome

/-- The network oracle a run is executed against. -/
abbrev Env := HttpRequest → HttpOutcome

/-- `class AuthenticationError(Exception)` — the only exception type the
client itself raises. -/
structure AuthenticationError where
  message : String

/-- The fields of `SectorAlarmAPI` (`self`).  The endpoint catalogs come from
the external `endpoints` module (not part of the source tree); per spec §2
they are a static read-only input, so they are carried as opaque data:
`data_endpoints` maps a logical key to (method, url) in iteration order, and
`action_endpoints` maps an action name to its (method, url) pair. -/
structure ApiState where
  email : String
  password : String
  panel_id : String
  panel_code : String
  access_token : Option Json
  headers : List (String × String)
  session : Bool
  data_endpoints : List (String × String × String)
  action_endpoints : String → String × String

/-- `SectorAlarmAPI.API_URL`. -/
def API_URL : String := "https://mypagesapi.sectoralarm.net"

/-- URL of the login endpoint. -/
def login_url : String := API_URL ++ "/api/Login/Login"

/-- URL of the logout endpoint. -/
def logout_url : String := API_URL ++ "/api/Login/Logout"

/-- URL of the dedicated lock-status endpoint for this panel. -/
def lockStatusUrl (st : ApiState) : String :=
  API_URL ++ "/api/panel/GetLockStatus?panelId=" ++ st.panel_id

/-- URL of the camera snapshot endpoint. -/
def cameraUrl : String := API_URL ++ "/api/camera/GetCameraImage"

/-- The request issued by `self.session.get(url, headers=self.headers)`. -/
def getRequest (st : ApiState) (url : String) : HttpRequest :=
  ⟨"GET", url, none, st.headers⟩

/-- The request issued by
`self.session.post(url, json=payload, headers=self.headers)`. -/
def postRequest (st : ApiState) (url : String) (payload : Json) : HttpRequest :=
  ⟨"POST", url, some payload, st.headers⟩

/-- The login request: `self.session.post(login_url, json=payload)` carries
no extra headers. -/
def loginRequest (st : ApiState) : HttpRequest :=
  ⟨"POST", login_url,
    some (Json.obj [("userId", Json.str st.email), ("password", Json.str st.password)]),
    []⟩

/-- `SectorAlarmAPI.__init__` (the two catalogs are produced by the external
`endpoints` module from `panel_id`, so they are parameters here). -/
def SectorAlarmAPI.init (email password panel_id panel_code : String)
    (de : List (String × String × String)) (ae : String → String × String) :
    ApiState :=
  { email := email
    password := password
    panel_id := panel_id
    panel_code := panel_code
    access_token := none
    headers := []
    session := false
    data_endpoints := de
    action_endpoints := ae }

/-- `SectorAlarmAPI._get`: 200 with a JSON Content-Type returns the decoded
body; any other status, a non-JSON 200, a timeout, or a transport error
returns `None`.  Totality of this function embeds "never raises" for these
failure modes. -/
def SectorAlarmAPI._get (env : Env) (st : ApiState) (url : String) :
    Option Json :=
  match env (getRequest st url) with
  | .response status ct body _ =>
    if status = 200 then
      if strContains ct "application/json" then some body else none
    else none
  | .timeout => none
  | .transportError => none

/-- `SectorAlarmAPI._post`: same classification as `_get`, for POST. -/
def SectorAlarmAPI._post (env : Env) (st : ApiState) (url : String)
    (payload : Json) : Option Json :=
  match env (postRequest st url payload) with
  | .response status ct body _ =>
    if status = 200 then
      if strContains ct "application/json" then some body else none
    else none
  | .timeout => none
  | .transportError => none

/-- The headers assigned by a successful login:
`{"Authorization": f"Bearer {self.access_token}", "Accept": "application/json"}`. -/
def bearerHeaders (tok : Option Json) : List (String × String) :=
  [("Authorization", "Bearer " ++ (match tok with
      | some j => j.pyStr
      | none => "None")),
   ("Accept", "application/json")]

/-- `SectorAlarmAPI.login`.  Returns the raised/ok outcome together with the
post-call `self`:
* creates the session if absent,
* POSTs `{userId, password}` to the login URL,
* status ≠ 200 → `AuthenticationError("Invalid credentials")`,
* a 200 whose Content-Type is not JSON makes `response.json()` raise
  `aiohttp.ContentTypeError`, a `ClientError`, caught as
  `AuthenticationError("Client error during login")`,
* otherwise `self.access_token = data.get("AuthorizationToken")`; a falsy
  token → `AuthenticationError("Invalid credentials")` (the assignment has
  already happened), else the bearer headers are derived from the token,
* `asyncio.TimeoutError` → `AuthenticationError("Timeout during login")`,
* `aiohttp.ClientError` → `AuthenticationError("Client error during login")`. -/
def SectorAlarmAPI.login (env : Env) (st : ApiState) :
    Except AuthenticationError Unit × ApiState :=
  let st1 := if st.session then st else { st with session := true }
  match env (loginRequest st) with
  | .timeout => (.error ⟨"Timeout during login"⟩, st1)
  | .transportError => (.error ⟨"Client error during login"⟩, st1)
  | .response status ct body _ =>
    if status ≠ 200 then
      (.error ⟨"Invalid credentials"⟩, st1)
    else if ¬ strContains ct "application/json" then
      (.error ⟨"Client error during login"⟩, st1)
    else
      let tok := body.getField "AuthorizationToken"
      let st2 := { st1 with access_token := tok }
      if truthyOpt tok then
        (.ok (), { st2 with headers := bearerHeaders tok })
      else
        (.error ⟨"Invalid credentials"⟩, st2)

/-- The per-entry outcome of the loop body of
`SectorAlarmAPI.retrieve_all_data` for one catalog entry `(key, method, url)`:
the Request Executor's result when the method is supported, filtered through
the `if response:` truthiness test; an unsupported method is logged and
skipped (`continue`). -/
def entryResult (env : Env) (st : ApiState) (entry : String × String × String) :
    Option Json :=
  let (_, method, url) := entry
  let response : Option Json :=
    if method = "GET" then SectorAlarmAPI._get env st url
    else if method = "POST" then
      SectorAlarmAPI._post env st url (Json.obj [("PanelId", Json.str st.panel_id)])
    else none
  match response with
  | some r => if r.truthy then some r else none
  | none => none

/-- One iteration of the `for key, (method, url) in self.data_endpoints.items()`
loop of `retrieve_all_data`: dispatch on the method, then `data[key] = response`
exactly when the response is truthy. -/
def aggregateStep (env : Env) (st : ApiState) (data : List (String × Json))
    (entry : String × String × String) : List (String × Json) :=
  let (key, method, url) := entry
  let response : Option Json :=
    if method = "GET" then SectorAlarmAPI._get env st url
    else if method = "POST" then
      SectorAlarmAPI._post env st url (Json.obj [("PanelId", Json.str st.panel_id)])
    else none
  match response with
  | some r => if r.truthy then dictInsert data key r else data
  | none => data

/-- `SectorAlarmAPI.get_lock_status`: GET the dedicated lock-status URL; a
truthy response is returned as is, anything else becomes the empty list. -/
def SectorAlarmAPI.get_lock_status (env : Env) (st : ApiState) :
    Json × ApiState :=
  match SectorAlarmAPI._get env st (lockStatusUrl st) with
  | some r => (if r.truthy then r else Json.arr [], st)
  | none => (Json.arr [], st)

/-- `SectorAlarmAPI.retrieve_all_data`: fold the catalog through
`aggregateStep` starting from the empty dict, then
`data["Lock Status"] = await self.get_lock_status()`. -/
def SectorAlarmAPI.retrieve_all_data (env : Env) (st : ApiState) :
    List (String × Json) × ApiState :=
  let data := st.data_endpoints.foldl (aggregateStep env st) []
  (dictInsert data "Lock Status" (SectorAlarmAPI.get_lock_status env st).1, st)

/-- `SectorAlarmAPI.arm_system`: POST `{ArmCode, PanelId, ArmType}` to the
catalog's Arm URL; `result is not None` maps to `True`/`False`. -/
def SectorAlarmAPI.arm_system (env : Env) (st : ApiState) (mode : String) :
    Bool × ApiState :=
  let url := (st.action_endpoints "Arm").2
  let payload := Json.obj
    [("ArmCode", Json.str st.panel_code),
     ("PanelId", Json.str st.panel_id),
     ("ArmType", Json.str mode)]
  match SectorAlarmAPI._post env st url payload with
  | some _ => (true, st)
  | none => (false, st)

/-- `SectorAlarmAPI.disarm_system`: POST `{DisarmCode, PanelId}` to the
catalog's Disarm URL. -/
def SectorAlarmAPI.disarm_system (env : Env) (st : ApiState) :
    Bool × ApiState :=
  let url := (st.action_endpoints "Disarm").2
  let payload := Json.obj
    [("DisarmCode", Json.str st.panel_code),
     ("PanelId", Json.str st.panel_id)]
  match SectorAlarmAPI._post env st url payload with
  | some _ => (true, st)
  | none => (false, st)

/-- `SectorAlarmAPI.lock_door`: POST `{LockSerial, PanelCode, PanelId, SerialNo}`
to the catalog's Lock URL. -/
def SectorAlarmAPI.lock_door (env : Env) (st : ApiState) (serial_no : String) :
    Bool × ApiState :=
  let url := (st.action_endpoints "Lock").2
  let payload := Json.obj
    [("LockSerial", Json.str serial_no),
     ("PanelCode", Json.str st.panel_code),
     ("PanelId", Json.str st.panel_id),
     ("SerialNo", Json.str serial_no)]
  match SectorAlarmAPI._post env st url payload with
  | some _ => (true, st)
  | none => (false, st)

/-- `SectorAlarmAPI.unlock_door`: POST `{LockSerial, PanelCode, PanelId, SerialNo}`
to the catalog's Unlock URL. -/
def SectorAlarmAPI.unlock_door (env : Env) (st : ApiState) (serial_no : String) :
    Bool × ApiState :=
  let url := (st.action_endpoints "Unlock").2
  let payload := Json.obj
    [("LockSerial", Json.str serial_no),
     ("PanelCode", Json.str st.panel_code),
     ("PanelId", Json.str st.panel_id),
     ("SerialNo", Json.str serial_no)]
  match SectorAlarmAPI._post env st url payload with
  | some _ => (true, st)
  | none => (false, st)

/-- `SectorAlarmAPI.turn_on_smartplug`: POST `{PanelId, DeviceId}` to the
fixed TurnOnSmartplug URL. -/
def SectorAlarmAPI.turn_on_smartplug (env : Env) (st : ApiState)
    (plug_id : String) : Bool × ApiState :=
  let url := API_URL ++ "/api/Panel/TurnOnSmartplug"
  let payload := Json.obj
    [("PanelId", Json.str st.panel_id),
     ("DeviceId", Json.str plug_id)]
  match SectorAlarmAPI._post env st url payload with
  | some _ => (true, st)
  | none => (false, st)

/-- `SectorAlarmAPI.turn_off_smartplug`: POST `{PanelId, DeviceId}` to the
fixed TurnOffSmartplug URL. -/
def SectorAlarmAPI.turn_off_smartplug (env : Env) (st : ApiState)
    (plug_id : String) : Bool × ApiState :=
  let url := API_URL ++ "/api/Panel/TurnOffSmartplug"
  let payload := Json.obj
    [("PanelId", Json.str st.panel_id),
     ("DeviceId", Json.str plug_id)]
  match SectorAlarmAPI._post env st url payload with
  | some _ => (true, st)
  | none => (false, st)

/-- `SectorAlarmAPI.get_camera_image`: POST `{PanelId, SerialNo}` to the
camera URL; `if response and response.get("ImageData"):` guards the base64
decode of `response["ImageData"]`, every other path returns `None`.
A truthy non-object response (where Python `.get` would raise
`AttributeError`) and a non-string `ImageData` (where `b64decode` would raise
`TypeError`) are outside the modelled domain and yield `none` here. -/
def SectorAlarmAPI.get_camera_image (env : Env) (st : ApiState)
    (serial_no : String) : Option (List Nat) × ApiState :=
  let payload := Json.obj
    [("PanelId", Json.str st.panel_id),
     ("SerialNo", Json.str serial_no)]
  match SectorAlarmAPI._post env st cameraUrl payload with
  | some resp =>
    if resp.truthy && truthyOpt (resp.getField "ImageData") then
      (match resp.getField "ImageData" with
       | some (Json.str s) => (b64decode s, st)
       | _ => (none, st))
    else (none, st)
  | none => (none, st)

/-- `SectorAlarmAPI.close`: release the session if held
(`if self.session: ... ; self.session = None`). -/
def SectorAlarmAPI.close (st : ApiState) : ApiState :=
  if st.session then { st with session := false } else st

/-- `SectorAlarmAPI.logout`: POST `{}` to the logout URL (its result is not
inspected), then `close`. -/
def SectorAlarmAPI.logout (env : Env) (st : ApiState) : ApiState :=
  match SectorAlarmAPI._post env st logout_url (Json.obj []) with
  | some _ => SectorAlarmAPI.close st
  | none => SectorAlarmAPI.close st

/-! ### Helper lemmas shared across the development -/

/-- `close` always leaves the connection resource released. -/
theorem close_session_false (st : ApiState) :
    (SectorAlarmAPI.close st).session = false := by
  unfold SectorAlarmAPI.close
  by_cases h : st.session <;> simp [h]

/-- `close` touches no field but `session`. -/
theorem close_headers_eq (st : ApiState) :
    (SectorAlarmAPI.close st).headers = st.headers := by
  unfold SectorAlarmAPI.close
  by_cases h : st.session <;> simp [h]

/-- `logout` ignores the logout POST's result: both match arms reduce to
`close`. -/
theorem logout_eq_close (env : Env) (st : ApiState) :
    SectorAlarmAPI.logout env st = SectorAlarmAPI.close st := by
  unfold SectorAlarmAPI.logout
  cases SectorAlarmAPI._post env st logout_url (Json.obj []) <;> rfl

/-- Looking up the key just written by `dictInsert` yields the written
value. -/
theorem dictGet_dictInsert_self (d : List (String × Json)) (k : String)
    (v : Json) : dictGet (dictInsert d k v) k = some v := by
  induction d with
  | nil => simp [dictInsert, dictGet]
  | cons p ds ih =>
    rcases p with ⟨k0, v0⟩
    by_cases h : k0 = k <;> simp [dictInsert, dictGet, h, ih]

/-- A truthy optional value is a `some`. -/
theorem truthyOpt_eq_true {o : Option Json} (h : truthyOpt o = true) :
    ∃ j, o = some j ∧ j.truthy = true := by
  cases o with
  | none => simp [truthyOpt] at h
  | some j => exact ⟨j, rfl, h⟩

/-- A value with a field is a nonempty object, hence truthy. -/
theorem Json.truthy_of_getField {j : Json} {k : String} {v : Json}
    (h : j.getField k = some v) : j.truthy = true := by
  cases j <;> simp [Json.getField] at h
  case obj fs =>
    cases fs with
    | nil => simp [dictGet] at h
    | cons p ps => simp [Json.truthy]

/-! ### Concrete states and environments used by witnesses and
counterexamples -/

/-- A logged-in client state with a one-entry data catalog and a fixed
action catalog, used as the concrete session for witnesses. -/
def stW : ApiState :=
  { email := "user@example.com"
    password := "pw"
    panel_id := "P1"
    panel_code := "1234"
    access_token := some (Json.str "tok")
    headers := bearerHeaders (some (Json.str "tok"))
    session := true
    data_endpoints := [("Devices", "POST", "https://u")]
    action_endpoints := fun _ => ("POST", "https://a") }

/-- A freshly constructed client (never logged in, no session). -/
def stFresh : ApiState :=
  SectorAlarmAPI.init "user@example.com" "pw" "P1" "1234"
    [("Devices", "POST", "https://u")] (fun _ => ("POST", "https://a"))

/-- Environment answering the catalog URL with a 200 JSON empty object and
timing out everywhere else. -/
def envA : Env := fun req =>
  if req.url = "https://u" then
    .response 200 "application/json" (Json.obj []) ""
  else .timeout

/-- Environment exercising each classification of the Request Executor on a
different URL. -/
def envC1 : Env := fun req =>
  if req.url = "https://ok" then
    .response 200 "application/json" (Json.obj [("a", Json.num 1)]) ""
  else if req.url = "https://html" then
    .response 200 "text/html" (Json.obj [("a", Json.num 1)]) "<html>"
  else if req.url = "https://bad" then
    .response 500 "application/json" (Json.obj []) "server error"
  else if req.url = "https://err" then
    .transportError
  else .timeout

/-! ### C1 — the Request Executor's classification of outcomes -/

/-- C1: for every `_get(url)` / `_post(url, payload)`, a 200 response with a
JSON content type returns the decoded body; a 200 with a non-JSON content
type, any non-200 status, a timeout and a transport error all return `None`.
The operations are total Lean functions into `Option Json`, which embeds
"never raises for any of these failure modes". -/
theorem c1_request_executor (env : Env) (st : ApiState) (url : String)
    (p : Json) :
    (∀ ct body raw, env (getRequest st url) = .response 200 ct body raw →
        (strContains ct "application/json" = true →
          SectorAlarmAPI._get env st url = some body)
      ∧ (strContains ct "application/json" = false →
          SectorAlarmAPI._get env st url = none))
  ∧ (∀ status ct body raw, status ≠ 200 →
      env (getRequest st url) = .response status ct body raw →
      SectorAlarmAPI._get env st url = none)
  ∧ (env (getRequest st url) = .timeout →
      SectorAlarmAPI._get env st url = none)
  ∧ (env (getRequest st url) = .transportError →
      SectorAlarmAPI._get env st url = none)
  ∧ (∀ ct body raw, env (postRequest st url p) = .response 200 ct body raw →
        (strContains ct "application/json" = true →
          SectorAlarmAPI._post env st url p = some body)
      ∧ (strContains ct "application/json" = false →
          SectorAlarmAPI._post env st url p = none))
  ∧ (∀ status ct body raw, status ≠ 200 →
      env (postRequest st url p) = .response status ct body raw →
      SectorAlarmAPI._post env st url p = none)
  ∧ (env (postRequest st url p) = .timeout →
      SectorAlarmAPI._post env st url p = none)
  ∧ (env (postRequest st url p) = .transportError →
      SectorAlarmAPI._post env st url p = none) := by
  refine ⟨?_, ?_, ?_, ?_, ?_, ?_, ?_, ?_⟩
  · intro ct body raw h
    exact ⟨fun hct => by simp [SectorAlarmAPI._get, h, hct],
           fun hct => by simp [SectorAlarmAPI._get, h, hct]⟩
  · intro status ct body raw hne h
    simp [SectorAlarmAPI._get, h, hne]
  · intro h; simp [SectorAlarmAPI._get, h]
  · intro h; simp [SectorAlarmAPI._get, h]
  · intro ct body raw h
    exact ⟨fun hct => by simp [SectorAlarmAPI._post, h, hct],
           fun hct => by simp [SectorAlarmAPI._post, h, hct]⟩
  · intro status ct body raw hne h
    simp [SectorAlarmAPI._post, h, hne]
  · intro h; simp [SectorAlarmAPI._post, h]
  · intro h; simp [SectorAlarmAPI._post, h]

/-- C1 witness: the classification evaluated on `envC1`. -/
theorem c1_request_executor_witness :
    SectorAlarmAPI._get envC1 stW "https://ok" = some (Json.obj [("a", Json.num 1)])
  ∧ SectorAlarmAPI._get envC1 stW "https://html" = none
  ∧ SectorAlarmAPI._post envC1 stW "https://bad" (Json.obj []) = none
  ∧ SectorAlarmAPI._get envC1 stW "https://t" = none
  ∧ SectorAlarmAPI._post envC1 stW "https://err" (Json.obj []) = none := by
  refine ⟨?_, ?_, ?_, ?_, ?_⟩
  · exact ((c1_request_executor envC1 stW "https://ok" (Json.obj [])).1
      _ _ _ rfl).1 rfl
  · exact ((c1_request_executor envC1 stW "https://html" (Json.obj [])).1
      _ _ _ rfl).2 rfl
  · exact (c1_request_executor envC1 stW "https://bad" (Json.obj [])).2.2.2.2.2.1
      500 _ _ _ (by decide) rfl
  · exact (c1_request_executor envC1 stW "https://t" (Json.obj [])).2.2.1 rfl
  · exact (c1_request_executor envC1 stW "https://err" (Json.obj [])).2.2.2.2.2.2.2 rfl

/-! ### C8 — idempotence of `close` -/

/-- C8: `close` releases the connection resource, is idempotent, and calling
it on a never-opened (or already closed) session is a no-op; as a total Lean
function it raises nothing. -/
theorem c8_close_idempotent (st : ApiState) :
    (SectorAlarmAPI.close st).session = false
  ∧ SectorAlarmAPI.close (SectorAlarmAPI.close st) = SectorAlarmAPI.close st
  ∧ (st.session = false → SectorAlarmAPI.close st = st) := by
  refine ⟨close_session_false st, ?_, ?_⟩
  · unfold SectorAlarmAPI.close
    by_cases h : st.session <;> simp [h]
  · intro h
    unfold SectorAlarmAPI.close
    simp [h]

/-- C8 witness: closing a never-opened session is a no-op (and closing twice
equals closing once on the logged-in state). -/
theorem c8_close_idempotent_witness :
    SectorAlarmAPI.close stFresh = stFresh
  ∧ SectorAlarmAPI.close (SectorAlarmAPI.close stW) = SectorAlarmAPI.close stW :=
  ⟨(c8_close_idempotent stFresh).2.2 rfl, (c8_close_idempotent stW).2.1⟩

/-! ### C9 — `logout` ignores the POST outcome and always releases -/

/-- C9: on a session holding the connection resource, `logout` produces the
same final state whatever the network oracle answers (the POST's outcome is
ignored), equals plain `close`, and leaves the resource released; totality
embeds "without raising". -/
theorem c9_logout_releases (env env2 : Env) (st : ApiState)
    (_h : st.session = true) :
    SectorAlarmAPI.logout env st = SectorAlarmAPI.close st
  ∧ SectorAlarmAPI.logout env st = SectorAlarmAPI.logout env2 st
  ∧ (SectorAlarmAPI.logout env st).session = false := by
  refine ⟨logout_eq_close env st, ?_, ?_⟩
  · rw [logout_eq_close, logout_eq_close]
  · rw [logout_eq_close]
    exact close_session_false st

/-- C9 witness: logging out of the live session under a timing-out network
and under a failing network produces the same closed state. -/
theorem c9_logout_releases_witness :
    SectorAlarmAPI.logout (fun _ => .timeout) stW = SectorAlarmAPI.close stW
  ∧ (SectorAlarmAPI.logout (fun _ => .timeout) stW).session = false :=
  ⟨(c9_logout_releases (fun _ => .timeout) (fun _ => .transportError) stW rfl).1,
   (c9_logout_releases (fun _ => .timeout) (fun _ => .transportError) stW rfl).2.2⟩

/-! ### C10 — data, action and camera operations leave `self` unchanged -/

/-- C10: every data-retrieval, action and camera operation returns the
session state exactly as it received it — none of these method bodies
assigns to `self` in the source, so credentials, token, headers, connection
resource and catalogs are all preserved. -/
theorem c10_frame_condition (env : Env) (st : ApiState)
    (mode serial plug cam : String) :
    (SectorAlarmAPI.retrieve_all_data env st).2 = st
  ∧ (SectorAlarmAPI.get_lock_status env st).2 = st
  ∧ (SectorAlarmAPI.arm_system env st mode).2 = st
  ∧ (SectorAlarmAPI.disarm_system env st).2 = st
  ∧ (SectorAlarmAPI.lock_door env st serial).2 = st
  ∧ (SectorAlarmAPI.unlock_door env st serial).2 = st
  ∧ (SectorAlarmAPI.turn_on_smartplug env st plug).2 = st
  ∧ (SectorAlarmAPI.turn_off_smartplug env st plug).2 = st
  ∧ (SectorAlarmAPI.get_camera_image env st cam).2 = st := by
  refine ⟨rfl, ?_, ?_, ?_, ?_, ?_, ?_, ?_, ?_⟩
  · unfold SectorAlarmAPI.get_lock_status
    split <;> rfl
  · unfold SectorAlarmAPI.arm_system
    dsimp only
    split <;> rfl
  · unfold SectorAlarmAPI.disarm_system
    dsimp only
    split <;> rfl
  · unfold SectorAlarmAPI.lock_door
    dsimp only
    split <;> rfl
  · unfold SectorAlarmAPI.unlock_door
    dsimp only
    split <;> rfl
  · unfold SectorAlarmAPI.turn_on_smartplug
    dsimp only
    split <;> rfl
  · unfold SectorAlarmAPI.turn_off_smartplug
    dsimp only
    split <;> rfl
  · unfold SectorAlarmAPI.get_camera_image
    dsimp only
    split
    · split
      · split <;> rfl
      · rfl
    · rfl

/-! ### C2 — failure behaviour of `login` -/

/-- A previously authenticated state: a stale token is still stored. -/
def stC2 : ApiState :=
  { stW with access_token := some (Json.str "stale") }

/-- Environment answering the login URL with a plain 401. -/
def envC2 : Env := fun req =>
  if req.url = login_url then
    .response 401 "application/json" (Json.obj []) "Unauthorized"
  else .timeout

/-- C2 counterexample: a 401 on re-login raises `AuthenticationError` but
does NOT leave the stored token unset — the previously issued token is still
stored, because the source raises before any assignment to
`self.access_token`. -/
theorem c2_counterexample :
    (SectorAlarmAPI.login envC2 stC2).1 = Except.error ⟨"Invalid credentials"⟩
  ∧ (SectorAlarmAPI.login envC2 stC2).2.access_token = some (Json.str "stale") :=
  ⟨rfl, rfl⟩

/-- C2 (amended): every listed failure mode of `login` — non-200 status,
missing `AuthorizationToken`, timeout, transport error — yields
`AuthenticationError` (the return type `Except AuthenticationError Unit`
embeds that no raw transport exception and no other exception type escapes).
The stored token is left unchanged on non-200, timeout and transport
failures (hence still unset whenever it was unset, e.g. on a session that
never logged in), and is overwritten with the absent value when the decoded
body lacks `AuthorizationToken`. -/
theorem c2_login_failures (env : Env) (st : ApiState) :
    (env (loginRequest st) = .timeout →
        (SectorAlarmAPI.login env st).1 = Except.error ⟨"Timeout during login"⟩
      ∧ (SectorAlarmAPI.login env st).2.access_token = st.access_token)
  ∧ (env (loginRequest st) = .transportError →
        (SectorAlarmAPI.login env st).1 = Except.error ⟨"Client error during login"⟩
      ∧ (SectorAlarmAPI.login env st).2.access_token = st.access_token)
  ∧ (∀ status ct body raw, status ≠ 200 →
      env (loginRequest st) = .response status ct body raw →
        (SectorAlarmAPI.login env st).1 = Except.error ⟨"Invalid credentials"⟩
      ∧ (SectorAlarmAPI.login env st).2.access_token = st.access_token)
  ∧ (∀ ct body raw, env (loginRequest st) = .response 200 ct body raw →
      strContains ct "application/json" = true →
      body.getField "AuthorizationToken" = none →
        (SectorAlarmAPI.login env st).1 = Except.error ⟨"Invalid credentials"⟩
      ∧ (SectorAlarmAPI.login env st).2.access_token = none) := by
  refine ⟨?_, ?_, ?_, ?_⟩
  · intro h
    unfold SectorAlarmAPI.login
    rw [h]
    by_cases hs : st.session <;> simp [hs]
  · intro h
    unfold SectorAlarmAPI.login
    rw [h]
    by_cases hs : st.session <;> simp [hs]
  · intro status ct body raw hne h
    unfold SectorAlarmAPI.login
    rw [h]
    by_cases hs : st.session <;> simp [hs, hne]
  · intro ct body raw h hct htok
    unfold SectorAlarmAPI.login
    rw [h]
    by_cases hs : st.session <;> simp [hs, hct, htok, truthyOpt]

/-- C2 witness: a timed-out login on a fresh client raises the timeout
`AuthenticationError` and the token is still unset. -/
theorem c2_login_failures_witness :
    (SectorAlarmAPI.login (fun _ => .timeout) stFresh).1
      = Except.error ⟨"Timeout during login"⟩
  ∧ (SectorAlarmAPI.login (fun _ => .timeout) stFresh).2.access_token = none := by
  have h := (c2_login_failures (fun _ => .timeout) stFresh).1 rfl
  exact ⟨h.1, h.2.trans rfl⟩

/-! ### C4 — the snapshot always carries the lock-status key -/

/-- C4: `retrieve_all_data` always binds the fixed key `"Lock Status"` to
the result of `get_lock_status`; when the dedicated GET fails the value is
the empty sequence rather than the key being omitted; and the dedicated URL
is exactly `GET /api/panel/GetLockStatus?panelId=<id>`. -/
theorem c4_lock_status_always_present (env : Env) (st : ApiState) :
    dictGet (SectorAlarmAPI.retrieve_all_data env st).1 "Lock Status"
      = some (SectorAlarmAPI.get_lock_status env st).1
  ∧ (SectorAlarmAPI._get env st (lockStatusUrl st) = none →
      (SectorAlarmAPI.get_lock_status env st).1 = Json.arr [])
  ∧ lockStatusUrl st
      = "https://mypagesapi.sectoralarm.net/api/panel/GetLockStatus?panelId="
        ++ st.panel_id := by
  refine ⟨?_, ?_, rfl⟩
  · unfold SectorAlarmAPI.retrieve_all_data
    dsimp only
    exact dictGet_dictInsert_self _ _ _
  · intro h
    unfold SectorAlarmAPI.get_lock_status
    rw [h]

/-- C4 witness: with every request timing out, the snapshot still carries
`"Lock Status"`, bound to the empty sequence. -/
theorem c4_lock_status_always_present_witness :
    dictGet (SectorAlarmAPI.retrieve_all_data (fun _ => .timeout) stW).1
      "Lock Status" = some (Json.arr []) := by
  have h := c4_lock_status_always_present (fun _ => .timeout) stW
  rw [h.1, h.2.1 rfl]

/-! ### C5 — the header set is derived from the stored token -/

/-- A successful `login` implies a 200 JSON response whose
`AuthorizationToken` field is truthy. -/
theorem login_ok_elim (env : Env) (st : ApiState)
    (h : (SectorAlarmAPI.login env st).1 = Except.ok ()) :
    ∃ ct body raw, env (loginRequest st) = .response 200 ct body raw
      ∧ strContains ct "application/json" = true
      ∧ truthyOpt (body.getField "AuthorizationToken") = true := by
  unfold SectorAlarmAPI.login at h
  cases henv : env (loginRequest st) with
  | timeout => rw [henv] at h; simp at h
  | transportError => rw [henv] at h; simp at h
  | response status ct body raw =>
    rw [henv] at h
    by_cases h200 : status = 200
    · subst h200
      by_cases hct : strContains ct "application/json" = true
      · by_cases htr : truthyOpt (body.getField "AuthorizationToken") = true
        · exact ⟨ct, body, raw, henv ▸ rfl, hct, htr⟩
        · simp [hct, htr] at h
      · simp [hct] at h
    · simp [h200] at h

/-- The state produced by a successful `login`: the session is ensured, the
token is the response body's `AuthorizationToken`, and the headers are the
bearer headers derived from that token. -/
theorem login_ok_state (env : Env) (st : ApiState) (ct : String) (body : Json)
    (raw : String)
    (henv : env (loginRequest st) = .response 200 ct body raw)
    (hct : strContains ct "application/json" = true)
    (htr : truthyOpt (body.getField "AuthorizationToken") = true) :
    (SectorAlarmAPI.login env st).2
      = { (if st.session then st else { st with session := true }) with
          access_token := body.getField "AuthorizationToken",
          headers := bearerHeaders (body.getField "AuthorizationToken") } := by
  unfold SectorAlarmAPI.login
  rw [henv]
  simp [hct, htr]

/-- C5: after every successful `login`, the stored token is the freshly
issued `AuthorizationToken`, the header set is exactly the bearer headers
derived from that token, and any immediately following authenticated GET or
POST carries those headers (while `close` never touches them) — the headers
are never set independently of the token. -/
theorem c5_header_invariant (env : Env) (st : ApiState)
    (h : (SectorAlarmAPI.login env st).1 = Except.ok ()) (url : String)
    (p : Json) :
    ∃ tok : Json,
      (SectorAlarmAPI.login env st).2.access_token = some tok
    ∧ (SectorAlarmAPI.login env st).2.headers = bearerHeaders (some tok)
    ∧ (getRequest (SectorAlarmAPI.login env st).2 url).headers
        = bearerHeaders (some tok)
    ∧ (postRequest (SectorAlarmAPI.login env st).2 url p).headers
        = bearerHeaders (some tok)
    ∧ (SectorAlarmAPI.close (SectorAlarmAPI.login env st).2).headers
        = bearerHeaders (some tok)
    ∧ ∃ ct body raw, env (loginRequest st) = .response 200 ct body raw
        ∧ body.getField "AuthorizationToken" = some tok := by
  obtain ⟨ct, body, raw, henv, hct, htr⟩ := login_ok_elim env st h
  obtain ⟨j, hj, _⟩ := truthyOpt_eq_true htr
  have hstate := login_ok_state env st ct body raw henv hct htr
  refine ⟨j, ?_, ?_, ?_, ?_, ?_, ct, body, raw, henv, hj⟩
  · rw [hstate]; simp [hj]
  · rw [hstate]; simp [hj]
  · rw [hstate]; simp [getRequest, hj]
  · rw [hstate]; simp [postRequest, hj]
  · rw [close_headers_eq, hstate]; simp [hj]

/-- Environment issuing a fresh token on login and timing out elsewhere. -/
def envLogin : Env := fun req =>
  if req.url = login_url then
    .response 200 "application/json"
      (Json.obj [("AuthorizationToken", Json.str "fresh")]) ""
  else .timeout

/-- C5 witness: logging the fresh client in against `envLogin` stores the
freshly issued token's bearer headers. -/
theorem c5_header_invariant_witness :
    (SectorAlarmAPI.login envLogin stFresh).2.headers
      = bearerHeaders (some (Json.str "fresh")) := by
  obtain ⟨tok, ha, hh, _⟩ :=
    c5_header_invariant envLogin stFresh rfl "https://u" (Json.obj [])
  have h2 : some (Json.str "fresh") = some tok := Eq.trans (by rfl) ha
  injection h2 with h3
  rw [← h3] at hh
  exact hh

/-! ### C6 — action operations: payload shape and boolean result -/

/-- The arm payload as the spec words it: `{ArmCode, PanelId, ArmType}`. -/
def specArmPayload (st : ApiState) (mode : String) : Json :=
  Json.obj
    [("ArmCode", Json.str st.panel_code),
     ("PanelId", Json.str st.panel_id),
     ("ArmType", Json.str mode)]

/-- The disarm payload as the spec words it: `{DisarmCode, PanelId}`. -/
def specDisarmPayload (st : ApiState) : Json :=
  Json.obj
    [("DisarmCode", Json.str st.panel_code),
     ("PanelId", Json.str st.panel_id)]

/-- The lock/unlock payload as the spec words it:
`{LockSerial, PanelCode, PanelId, SerialNo}`. -/
def specLockPayload (st : ApiState) (serial : String) : Json :=
  Json.obj
    [("LockSerial", Json.str serial),
     ("PanelCode", Json.str st.panel_code),
     ("PanelId", Json.str st.panel_id),
     ("SerialNo", Json.str serial)]

/-- The smart-plug payload as the spec words it: `{PanelId, DeviceId}`. -/
def specPlugPayload (st : ApiState) (plug : String) : Json :=
  Json.obj
    [("PanelId", Json.str st.panel_id),
     ("DeviceId", Json.str plug)]

/-- C6: each action POSTs exactly its method-specific payload via the
Request Executor and returns `true` exactly when the executor returned a
present result (`result is not None`) — including a 200-with-JSON response
(→ `true`) and a 500 response (→ `false`) for arm. -/
theorem c6_action_dispatch (env : Env) (st : ApiState)
    (mode serial plug : String) :
    ((SectorAlarmAPI.arm_system env st mode).1
      = (SectorAlarmAPI._post env st (st.action_endpoints "Arm").2
          (specArmPayload st mode)).isSome)
  ∧ ((SectorAlarmAPI.disarm_system env st).1
      = (SectorAlarmAPI._post env st (st.action_endpoints "Disarm").2
          (specDisarmPayload st)).isSome)
  ∧ ((SectorAlarmAPI.lock_door env st serial).1
      = (SectorAlarmAPI._post env st (st.action_endpoints "Lock").2
          (specLockPayload st serial)).isSome)
  ∧ ((SectorAlarmAPI.unlock_door env st serial).1
      = (SectorAlarmAPI._post env st (st.action_endpoints "Unlock").2
          (specLockPayload st serial)).isSome)
  ∧ ((SectorAlarmAPI.turn_on_smartplug env st plug).1
      = (SectorAlarmAPI._post env st (API_URL ++ "/api/Panel/TurnOnSmartplug")
          (specPlugPayload st plug)).isSome)
  ∧ ((SectorAlarmAPI.turn_off_smartplug env st plug).1
      = (SectorAlarmAPI._post env st (API_URL ++ "/api/Panel/TurnOffSmartplug")
          (specPlugPayload st plug)).isSome)
  ∧ (∀ ct body raw,
      env (postRequest st (st.action_endpoints "Arm").2 (specArmPayload st mode))
        = .response 200 ct body raw →
      strContains ct "application/json" = true →
      (SectorAlarmAPI.arm_system env st mode).1 = true)
  ∧ (∀ ct body raw,
      env (postRequest st (st.action_endpoints "Arm").2 (specArmPayload st mode))
        = .response 500 ct body raw →
      (SectorAlarmAPI.arm_system env st mode).1 = false) := by
  refine ⟨?_, ?_, ?_, ?_, ?_, ?_, ?_, ?_⟩
  · cases hr : SectorAlarmAPI._post env st (st.action_endpoints "Arm").2
      (specArmPayload st mode) <;>
      simp [SectorAlarmAPI.arm_system, specArmPayload, hr] at hr ⊢
  · cases hr : SectorAlarmAPI._post env st (st.action_endpoints "Disarm").2
      (specDisarmPayload st) <;>
      simp [SectorAlarmAPI.disarm_system, specDisarmPayload, hr] at hr ⊢
  · cases hr : SectorAlarmAPI._post env st (st.action_endpoints "Lock").2
      (specLockPayload st serial) <;>
      simp [SectorAlarmAPI.lock_door, specLockPayload, hr] at hr ⊢
  · cases hr : SectorAlarmAPI._post env st (st.action_endpoints "Unlock").2
      (specLockPayload st serial) <;>
      simp [SectorAlarmAPI.unlock_door, specLockPayload, hr] at hr ⊢
  · cases hr : SectorAlarmAPI._post env st (API_URL ++ "/api/Panel/TurnOnSmartplug")
      (specPlugPayload st plug) <;>
      simp [SectorAlarmAPI.turn_on_smartplug, specPlugPayload, hr] at hr ⊢
  · cases hr : SectorAlarmAPI._post env st (API_URL ++ "/api/Panel/TurnOffSmartplug")
      (specPlugPayload st plug) <;>
      simp [SectorAlarmAPI.turn_off_smartplug, specPlugPayload, hr] at hr ⊢
  · intro ct body raw henv hct
    simp [SectorAlarmAPI.arm_system, SectorAlarmAPI._post, specArmPayload,
      henv, hct] at henv ⊢
  · intro ct body raw henv
    simp [SectorAlarmAPI.arm_system, SectorAlarmAPI._post, specArmPayload,
      henv] at henv ⊢

/-- Environment answering the action URL with 200 + JSON. -/
def envArm200 : Env := fun req =>
  if req.url = "https://a" then
    .response 200 "application/json" (Json.obj [("status", Json.str "success")]) ""
  else .timeout

/-- Environment answering the action URL with a 500. -/
def envArm500 : Env := fun req =>
  if req.url = "https://a" then
    .response 500 "application/json" (Json.obj []) "server error"
  else .timeout

/-- C6 witness: `arm_system("total")` yields `true` against a 200 JSON
response and `false` against a 500. -/
theorem c6_action_dispatch_witness :
    (SectorAlarmAPI.arm_system envArm200 stW "total").1 = true
  ∧ (SectorAlarmAPI.arm_system envArm500 stW "total").1 = false := by
  constructor
  · exact (c6_action_dispatch envArm200 stW "total" "S1" "D1").2.2.2.2.2.2.1
      _ _ _ rfl rfl
  · exact (c6_action_dispatch envArm500 stW "total" "S1" "D1").2.2.2.2.2.2.2
      _ _ _ rfl

/-! ### C7 — camera snapshot retrieval -/

/-- Environment whose camera response carries an empty `ImageData` string. -/
def envCamEmpty : Env := fun req =>
  if req.url = cameraUrl then
    .response 200 "application/json" (Json.obj [("ImageData", Json.str "")]) ""
  else .timeout

/-- C7 counterexample: the camera response does contain an `ImageData`
field, and that field's base64 decoding is the empty byte buffer, yet
`get_camera_image` yields no image — the source's truthiness test
`if response and response.get("ImageData"):` rejects the falsy empty
string, refuting "a response containing an ImageData field yields that
field's value base64-decoded". -/
theorem c7_counterexample :
    SectorAlarmAPI._post envCamEmpty stW cameraUrl
      (Json.obj [("PanelId", Json.str "P1"), ("SerialNo", Json.str "S1")])
      = some (Json.obj [("ImageData", Json.str "")])
  ∧ (Json.obj [("ImageData", Json.str "")]).getField "ImageData"
      = some (Json.str "")
  ∧ b64decode "" = some []
  ∧ (SectorAlarmAPI.get_camera_image envCamEmpty stW "S1").1 = none :=
  ⟨rfl, rfl, rfl, rfl⟩

/-- C7 (amended): a response carrying a truthy (non-empty) string
`ImageData` field yields that field's base64 decoding as the raw byte
buffer; an object response without the field, a response whose `ImageData`
is falsy (e.g. the empty string), and absence of a response all yield no
image. -/
theorem c7_camera_image (env : Env) (st : ApiState) (serial : String) :
    (∀ resp,
        SectorAlarmAPI._post env st cameraUrl
          (Json.obj [("PanelId", Json.str st.panel_id),
                     ("SerialNo", Json.str serial)]) = some resp →
        (∀ s, resp.getField "ImageData" = some (Json.str s) → s ≠ "" →
          (SectorAlarmAPI.get_camera_image env st serial).1 = b64decode s)
      ∧ (∀ fs, resp = Json.obj fs → dictGet fs "ImageData" = none →
          (SectorAlarmAPI.get_camera_image env st serial).1 = none)
      ∧ (truthyOpt (resp.getField "ImageData") = false →
          (SectorAlarmAPI.get_camera_image env st serial).1 = none))
  ∧ (SectorAlarmAPI._post env st cameraUrl
        (Json.obj [("PanelId", Json.str st.panel_id),
                   ("SerialNo", Json.str serial)]) = none →
      (SectorAlarmAPI.get_camera_image env st serial).1 = none) := by
  constructor
  · intro resp hpost
    refine ⟨?_, ?_, ?_⟩
    · intro s hfield hs
      have htr : resp.truthy = true := Json.truthy_of_getField hfield
      have hstr : (Json.str s).truthy = true := by simp [Json.truthy, hs]
      simp [SectorAlarmAPI.get_camera_image, hpost, hfield, htr, truthyOpt,
        hstr]
    · intro fs hresp hfield
      subst hresp
      simp [SectorAlarmAPI.get_camera_image, hpost, Json.getField, hfield,
        truthyOpt]
    · intro hfalse
      simp [SectorAlarmAPI.get_camera_image, hpost, hfalse]
  · intro hpost
    simp [SectorAlarmAPI.get_camera_image, hpost]

/-- Environment whose camera response carries `ImageData = "aGVsbG8="`. -/
def envCamOk : Env := fun req =>
  if req.url = cameraUrl then
    .response 200 "application/json"
      (Json.obj [("ImageData", Json.str "aGVsbG8=")]) ""
  else .timeout

/-- C7 witness: `{"ImageData": "aGVsbG8="}` decodes to the bytes of
`"hello"`, and a response missing the field yields no image. -/
theorem c7_camera_image_witness :
    (SectorAlarmAPI.get_camera_image envCamOk stW "S1").1
      = some [104, 101, 108, 108, 111]
  ∧ [104, 101, 108, 108, 111] = "hello".toList.map Char.toNat
  ∧ (SectorAlarmAPI.get_camera_image envA stW "S1").1 = none := by
  refine ⟨?_, by decide, ?_⟩
  · have h := ((c7_camera_image envCamOk stW "S1").1 _ rfl).1 "aGVsbG8=" rfl
      (by decide)
    exact h.trans rfl
  · exact (c7_camera_image envA stW "S1").2 rfl

/-! ### C3 — snapshot aggregation over the data catalog -/

/-- The loop body of `retrieve_all_data` written through `entryResult`:
insert exactly when the per-entry result is present (i.e. the executor
answered and the answer is truthy). -/
theorem aggregateStep_entryResult (env : Env) (st : ApiState)
    (data : List (String × Json)) (e : String × String × String) :
    aggregateStep env st data e
      = match entryResult env st e with
        | some r => dictInsert data e.1 r
        | none => data := by
  rcases e with ⟨key, method, url⟩
  unfold aggregateStep entryResult
  dsimp only
  cases hR : (if method = "GET" then SectorAlarmAPI._get env st url
    else if method = "POST" then
      SectorAlarmAPI._post env st url (Json.obj [("PanelId", Json.str st.panel_id)])
    else none) with
  | none => simp [hR]
  | some r => by_cases ht : r.truthy <;> simp [hR, ht]

/-- Inserting a fresh key appends it. -/
theorem dictInsert_of_not_mem (d : List (String × Json)) (k : String)
    (v : Json) (h : k ∉ d.map Prod.fst) :
    dictInsert d k v = d ++ [(k, v)] := by
  induction d with
  | nil => rfl
  | cons p ds ih =>
    rcases p with ⟨k0, v0⟩
    simp only [List.map_cons, List.mem_cons, not_or] at h
    have hne : ¬ (k0 = k) := fun hh => h.1 hh.symm
    simp [dictInsert, hne, ih h.2]

/-- Folding the catalog through the loop body collects, in catalog order,
exactly the entries whose per-entry result is present — provided the keys
are distinct and fresh with respect to the accumulator (a Python dict's
keys are distinct by construction). -/
theorem foldl_aggregate_eq (env : Env) (st : ApiState) :
    ∀ (entries : List (String × String × String))
      (acc : List (String × Json)),
      (entries.map Prod.fst).Nodup →
      (∀ e ∈ entries, e.1 ∉ acc.map Prod.fst) →
      entries.foldl (aggregateStep env st) acc
        = acc ++ entries.filterMap
            (fun e => (entryResult env st e).map (fun r => (e.1, r)))
  | [], acc, _, _ => by simp
  | e :: rest, acc, hnd, hdisj => by
    rw [List.foldl_cons, aggregateStep_entryResult]
    simp only [List.map_cons, List.nodup_cons] at hnd
    cases hres : entryResult env st e with
    | none =>
      simp only [hres]
      rw [foldl_aggregate_eq env st rest acc hnd.2
        (fun e' he' => hdisj e' (List.mem_cons_of_mem _ he'))]
      simp [List.filterMap_cons, hres]
    | some r =>
      simp only [hres]
      rw [dictInsert_of_not_mem acc e.1 r (hdisj e (List.mem_cons_self _ _))]
      rw [foldl_aggregate_eq env st rest (acc ++ [(e.1, r)]) hnd.2 ?fresh]
      · simp [List.filterMap_cons, hres]
      case fresh =>
        intro e' he'
        simp only [List.map_append, List.mem_append]
        rintro (hmem | hmem)
        · exact hdisj e' (List.mem_cons_of_mem _ he') hmem
        · simp at hmem
          exact hnd.1 (hmem ▸ List.mem_map_of_mem Prod.fst he')

/-- C3 counterexample: for the POST catalog entry `"Devices"`, the Request
Executor returns a PRESENT result (a 200 JSON response decoding to the empty
object `{}`), yet the key is omitted from the snapshot — the source keys the
insertion on Python truthiness (`if response:`), not on presence, refuting
"inserted if and only if the Request Executor returned a present result". -/
theorem c3_counterexample :
    SectorAlarmAPI._post envA stW "https://u"
      (Json.obj [("PanelId", Json.str "P1")]) = some (Json.obj [])
  ∧ dictGet (SectorAlarmAPI.retrieve_all_data envA stW).1 "Devices" = none :=
  ⟨rfl, rfl⟩

/-- C3 (amended): over a catalog with distinct keys not containing the fixed
lock-status key, `retrieve_all_data` issues a GET for GET entries and a POST
with `{PanelId}` for POST entries, skips other methods non-fatally, and the
snapshot consists, in catalog order, of exactly those keys whose per-entry
result is present AND truthy (a present but falsy result, such as `{}` or
`[]`, is omitted like a failure; values are never inserted as null),
followed by the fixed lock-status entry. -/
theorem c3_snapshot_aggregation (env : Env) (st : ApiState)
    (hnd : (st.data_endpoints.map Prod.fst).Nodup)
    (hls : "Lock Status" ∉ st.data_endpoints.map Prod.fst) :
    (SectorAlarmAPI.retrieve_all_data env st).1
      = st.data_endpoints.filterMap
          (fun e => (entryResult env st e).map (fun r => (e.1, r)))
        ++ [("Lock Status", (SectorAlarmAPI.get_lock_status env st).1)] := by
  unfold SectorAlarmAPI.retrieve_all_data
  dsimp only
  rw [foldl_aggregate_eq env st st.data_endpoints [] hnd (by simp)]
  rw [List.nil_append]
  apply dictInsert_of_not_mem
  intro hmem
  apply hls
  rcases List.mem_map.mp hmem with ⟨p, hp, hfst⟩
  rcases List.mem_filterMap.mp hp with ⟨e, he, hmap⟩
  rcases Option.map_eq_some'.mp hmap with ⟨r, _, hpr⟩
  rw [← hfst, ← hpr]
  exact List.mem_map_of_mem Prod.fst he

/-- C3 witness: on the one-entry catalog, the present-but-falsy `{}` answer
leaves only the lock-status entry in the snapshot. -/
theorem c3_snapshot_aggregation_witness :
    (SectorAlarmAPI.retrieve_all_data envA stW).1
      = [("Lock Status", Json.arr [])] :=
  (c3_snapshot_aggregation envA stW (by decide) (by decide)).trans rfl
